import Mathlib

/-
Verification of the whisper-windows-gui session controller against its
specification.

Shallow embedding of src/whisper_gui.py (canonical variant) and, where it
differs in ways the claims depend on, src/whisper_cli.py (the simpler
variant, embedded under the WhisperCli namespace).

Modelling conventions:
  * Audio samples (numpy float32 in the source) are modelled as exact
    rationals.  A Block is the per-callback chunk `indata`; a Waveform is
    the flattened concatenation returned by stop_recording.
  * The source field `audio_level` stores `np.sqrt(np.mean(indata**2))`.
    Exact square roots leave the rationals, so the state stores the value
    BEFORE the square root (field audio_level_sq, the mean of squares) and
    the derived view WhisperRecorder.audio_level applies Real.sqrt.  The
    square is a strictly monotone bijection on the nonnegative reals, so no
    information is lost.
  * External collaborators (the sounddevice audio subsystem, the Whisper
    model, the clipboard) are modelled by behaviour oracles passed as
    explicit arguments: DeviceBehavior says where start_recording fails,
    StopBehavior says where stop_recording fails, EngineBehavior says what
    model.transcribe does, and the Bool argument of callback says whether
    processing the current block raises.  Python mutation up to the raise
    point is reproduced exactly: every embedded method returns the state as
    mutated when the exception escapes or is caught.
  * transcribe returns, next to the text, a Bool recording whether the
    external engine (self.model.transcribe) was actually invoked; this is
    pure instrumentation and does not influence any state.
  * WhisperGUI mirrors the Tk application state the claims observe: the
    recorder, the status label text, the transcript text box, and the list
    of strings passed to copy_to_clipboard (the ClipboardSink calls, in
    order).  Button images and the visualizer bars carry no claim-relevant
    state; the visualizer read path update_visualizer is modelled as the
    optional level it would display.
-/

/-- One audio sample (float32 in the source, exact rational here). -/
abbrev Sample : Type := ℚ

/-- One fixed-size chunk of samples delivered per callback invocation. -/
abbrev Block : Type := List Sample

/-- The flattened sample sequence of one completed recording session. -/
abbrev Waveform : Type := List Sample

/-- State of the sounddevice InputStream object held in self.stream. -/
structure StreamState where
  running : Bool
  closed : Bool
  deriving DecidableEq

/-- Error raised out of start_recording (device or stream failure). -/
inductive CaptureError where
  | deviceUnavailable
  deriving DecidableEq

/-- Oracle for the audio subsystem during start_recording: where, if
anywhere, the sounddevice calls raise. -/
inductive DeviceBehavior where
  /-- every sounddevice call succeeds -/
  | ok
  /-- the probing `sd.InputStream(...)` test open raises -/
  | testOpenRaises
  /-- creating the callback stream `sd.InputStream(...)` raises -/
  | openRaises
  /-- `self.stream.start()` raises after the stream object was assigned -/
  | startRaises
  deriving DecidableEq

/-- Oracle for the audio subsystem during stop_recording. -/
inductive StopBehavior where
  /-- stream stop and close both succeed -/
  | ok
  /-- `self.stream.stop()` raises -/
  | stopRaises
  /-- `self.stream.close()` raises after the stream was stopped -/
  | closeRaises
  deriving DecidableEq

/-- Oracle for the external Whisper model inside transcribe. -/
inductive EngineBehavior where
  /-- `self.model.transcribe(...)` returns a result with the given text -/
  | returnsText (t : String)
  /-- `self.model.transcribe(...)` raises -/
  | raises
  deriving DecidableEq

/-- Failure of processing one block inside the capture callback. -/
inductive CallbackError where
  | blockFailure
  deriving DecidableEq

/-- The mutable fields of the Python class WhisperRecorder (whisper_gui.py
lines 51-61).  model_name and model belong to the external engine and are
represented by the EngineBehavior oracle instead. -/
structure WhisperRecorder where
  SAMPLE_RATE : ℕ
  CHANNELS : ℕ
  BUFFER : List Block
  stream : Option StreamState
  is_recording : Bool
  start_time : ℚ
  /-- square of the source field audio_level, i.e. np.mean(indata**2) of
  the most recent block (see the header comment) -/
  audio_level_sq : ℚ
  deriving DecidableEq

/-- Recorder state produced by WhisperRecorder.__init__ with the default
arguments (whisper_gui.py lines 52-61). -/
def initRecorder : WhisperRecorder :=
  { SAMPLE_RATE := 16000
    CHANNELS := 1
    BUFFER := []
    stream := none
    is_recording := false
    start_time := 0
    audio_level_sq := 0 }

/-- Mean of squares of a block, np.mean(indata**2).  On the empty block the
source produces nan (numpy mean of an empty array); rational division by
zero yields 0 here, and no claim evaluates the empty-block case. -/
def meanSq (b : Block) : ℚ :=
  (b.map (fun x => x ^ 2)).sum / (b.length : ℚ)

/-- The unguarded body of the capture callback, shared by both variants:
append a copy of the block to BUFFER and overwrite audio_level with the RMS
of the block (whisper_gui.py lines 137-139, whisper_cli.py lines 43-45). -/
def blockStep (r : WhisperRecorder) (indata : Block) : WhisperRecorder :=
  { r with
    BUFFER := r.BUFFER ++ [indata]
    audio_level_sq := meanSq indata }

/-- Capture callback of whisper_gui.py lines 132-141.  The body runs inside
try/except, so a failure while processing the block (blockRaises, modelled
at the leading indata.copy() before any field is mutated) is logged and the
state is returned unchanged; nothing escapes to the audio subsystem.  The
status argument of the source is only logged and carries no state. -/
def WhisperRecorder.callback (r : WhisperRecorder) (indata : Block)
    (blockRaises : Bool) : WhisperRecorder :=
  if blockRaises then r else blockStep r indata

/-- WhisperRecorder.start_recording of whisper_gui.py lines 143-163.  The
except branch logs and re-raises, so the error escapes to the caller; the
returned state is the object as mutated up to the raise point. -/
def WhisperRecorder.start_recording (r : WhisperRecorder) (now : ℚ)
    (dev : DeviceBehavior) : WhisperRecorder × Except CaptureError Unit :=
  match dev with
  | .testOpenRaises => (r, .error .deviceUnavailable)
  | .openRaises => (r, .error .deviceUnavailable)
  | .startRaises =>
      ({ r with stream := some { running := false, closed := false } },
       .error .deviceUnavailable)
  | .ok =>
      ({ r with
          stream := some { running := true, closed := false }
          is_recording := true
          start_time := now },
       .ok ())

/-- WhisperRecorder.stop_recording of whisper_gui.py lines 165-188.  When
not recording it returns None at once.  The whole body runs inside
try/except returning None on any failure, so a raise from stream.stop()
leaves is_recording still true; a raise from stream.close() happens after
the stream was stopped but likewise before is_recording is cleared.  The
unreachable corner where is_recording holds but stream is None raises
AttributeError inside the try and is returned as None with the state
untouched. -/
def WhisperRecorder.stop_recording (r : WhisperRecorder) (beh : StopBehavior) :
    WhisperRecorder × Option Waveform :=
  if !r.is_recording then (r, none)
  else
    match r.stream, beh with
    | none, _ => (r, none)
    | some _, .stopRaises => (r, none)
    | some s, .closeRaises =>
        ({ r with stream := some { running := false, closed := s.closed } }, none)
    | some _, .ok =>
        if r.BUFFER = [] then
          ({ r with
              stream := some { running := false, closed := true }
              is_recording := false }, none)
        else
          ({ r with
              stream := some { running := false, closed := true }
              is_recording := false
              BUFFER := [] },
           some r.BUFFER.flatten)

/-- WhisperRecorder.transcribe of whisper_gui.py lines 190-201.  A None
input returns the empty string before the try block; inside the try, a
raise from the engine is caught and the empty string returned.  The second
component records whether self.model.transcribe was invoked
(instrumentation only). -/
def WhisperRecorder.transcribe (audio : Option Waveform)
    (eng : EngineBehavior) : String × Bool :=
  match audio with
  | none => ("", false)
  | some _ =>
      match eng with
      | .returnsText t => (t, true)
      | .raises => ("", true)

namespace WhisperCli

/-- Capture callback of whisper_cli.py lines 39-45: the same body as the
GUI variant but with NO try/except, so a failure while processing a block
escapes the callback boundary to the audio subsystem. -/
def callback (r : WhisperRecorder) (indata : Block) (blockRaises : Bool) :
    Except CallbackError WhisperRecorder :=
  if blockRaises then .error .blockFailure else .ok (blockStep r indata)

/-- WhisperRecorder.stop_recording of whisper_cli.py lines 59-78: identical
to the GUI variant except that the body is NOT wrapped in try/except, so
stream failures escape to the caller. -/
def stop_recording (r : WhisperRecorder) (beh : StopBehavior) :
    WhisperRecorder × Except CallbackError (Option Waveform) :=
  if !r.is_recording then (r, .ok none)
  else
    match r.stream, beh with
    | none, _ => (r, .error .blockFailure)
    | some _, .stopRaises => (r, .error .blockFailure)
    | some s, .closeRaises =>
        ({ r with stream := some { running := false, closed := s.closed } },
         .error .blockFailure)
    | some _, .ok =>
        if r.BUFFER = [] then
          ({ r with
              stream := some { running := false, closed := true }
              is_recording := false }, .ok none)
        else
          ({ r with
              stream := some { running := false, closed := true }
              is_recording := false
              BUFFER := [] },
           .ok (some r.BUFFER.flatten))

end WhisperCli

/-- Real-valued view of the source field audio_level (the stored value is
its square, see the header comment). -/
noncomputable def WhisperRecorder.audio_level (r : WhisperRecorder) : ℝ :=
  Real.sqrt (r.audio_level_sq : ℝ)

/-- The Tk application state observed by the claims: the recorder, the
status label text, the transcript text box text, and the list of strings
passed to copy_to_clipboard (the ClipboardSink), in call order. -/
structure WhisperGUI where
  recorder : WhisperRecorder
  status_label : String
  text_box : String
  clipboardCalls : List String
  deriving DecidableEq

/-- Which branch WhisperGUI.toggle_recording takes (whisper_gui.py lines
415-419): the start path spawns _record, the stop path spawns
_stop_and_transcribe. -/
inductive ToggleAction where
  | startPath
  | stopPath
  deriving DecidableEq

/-- WhisperGUI.toggle_recording of whisper_gui.py lines 415-419: the branch
is chosen solely by the boolean self.recorder.is_recording. -/
def WhisperGUI.toggle_recording (g : WhisperGUI) : ToggleAction :=
  if !g.recorder.is_recording then .startPath else .stopPath

/-- Stand-in for the formatted message f-string of whisper_gui.py line 432. -/
def startErrorText : String := "Error starting recording"

/-- Foreground half of the start path (whisper_gui.py lines 421-426):
updates the status label and spawns the _record worker thread. -/
def WhisperGUI.start_recording (g : WhisperGUI) : WhisperGUI :=
  { g with status_label := "Recording..." }

/-- The worker body WhisperGUI._record of whisper_gui.py lines 428-437: run
recorder.start_recording; on failure show the error message in the text box
(and a message box) and reset the button.  The status label is NOT touched
by the failure branch. -/
def WhisperGUI.record_worker (g : WhisperGUI) (now : ℚ) (dev : DeviceBehavior) :
    WhisperGUI :=
  match WhisperRecorder.start_recording g.recorder now dev with
  | (r1, .ok _) => { g with recorder := r1 }
  | (r1, .error _) => { g with recorder := r1, text_box := startErrorText }

/-- Foreground half of the stop path (whisper_gui.py lines 439-443):
updates the status label and spawns the _stop_and_transcribe worker. -/
def WhisperGUI.stop_recording (g : WhisperGUI) : WhisperGUI :=
  { g with status_label := "Generating text..." }

/-- The worker body WhisperGUI._stop_and_transcribe of whisper_gui.py lines
445-466: stop the recorder; if a waveform came back, transcribe it, write
the text into the text box, pass it to copy_to_clipboard and reset the
status; otherwise report that no audio was recorded.  Every operation in
the try block catches its own failures internally (stop_recording,
transcribe and copy_to_clipboard each swallow theirs), so the outer except
branch is unreachable for the modelled failure modes. -/
def WhisperGUI.stop_and_transcribe (g : WhisperGUI) (beh : StopBehavior)
    (eng : EngineBehavior) : WhisperGUI :=
  match WhisperRecorder.stop_recording g.recorder beh with
  | (r1, some w) =>
      { g with
        recorder := r1
        text_box := (WhisperRecorder.transcribe (some w) eng).1
        clipboardCalls := g.clipboardCalls ++ [(WhisperRecorder.transcribe (some w) eng).1]
        status_label := "Ready to record" }
  | (r1, none) =>
      { g with
        recorder := r1
        text_box := "No audio recorded"
        status_label := "Ready to record" }

/-- Read path of the level meter, WhisperGUI.update_visualizer of
whisper_gui.py lines 387-413: returns early (reads nothing) unless the
recorder is recording, otherwise displays min(1, audio_level * 5). -/
noncomputable def WhisperGUI.update_visualizer (g : WhisperGUI) : Option ℝ :=
  if g.recorder.is_recording then
    some (min 1 (g.recorder.audio_level * 5))
  else
    none

/-- Fold of the capture callback (GUI variant, no block failures) over a
list of arriving blocks, in arrival order. -/
def runCallbacks (r : WhisperRecorder) (bs : List Block) : WhisperRecorder :=
  bs.foldl (fun s b => WhisperRecorder.callback s b false) r

/-- Recorder state after a successful start from the initial state. -/
def rStarted : WhisperRecorder :=
  (WhisperRecorder.start_recording initRecorder 0 .ok).1

/-- Recorder state after one block of two full-scale samples arrived. -/
def rWithAudio : WhisperRecorder :=
  WhisperRecorder.callback rStarted [1, 1] false

/-- Recorder state after the session with one block was stopped cleanly. -/
def rStopped : WhisperRecorder :=
  (WhisperRecorder.stop_recording rWithAudio .ok).1

/-- Application state mid-session: recording, one block captured. -/
def gRecording : WhisperGUI :=
  { recorder := rWithAudio
    status_label := "Recording..."
    text_box := ""
    clipboardCalls := [] }

/-- Application state after the session was stopped cleanly. -/
def gIdle : WhisperGUI :=
  { recorder := rStopped
    status_label := "Ready to record"
    text_box := ""
    clipboardCalls := [] }

/-- Three blocks of two zero samples each, scenario-1 style input. -/
def bs3 : List Block := [[0, 0], [0, 0], [0, 0]]

/-- Stopping while not recording is decided by the leading guard alone, in
the GUI variant. -/
theorem stop_noop_of_not_recording (r : WhisperRecorder) (beh : StopBehavior)
    (h : r.is_recording = false) :
    WhisperRecorder.stop_recording r beh = (r, none) := by
  simp [WhisperRecorder.stop_recording, h]

/-- Stopping while not recording is decided by the leading guard alone, in
the CLI variant. -/
theorem stop_noop_of_not_recording_cli (r : WhisperRecorder) (beh : StopBehavior)
    (h : r.is_recording = false) :
    WhisperCli.stop_recording r beh = (r, Except.ok none) := by
  simp [WhisperCli.stop_recording, h]

/-- A callback invocation without a block failure is exactly blockStep. -/
theorem callback_no_raise (r : WhisperRecorder) (b : Block) :
    WhisperRecorder.callback r b false = blockStep r b := rfl

/-- Unfolding one arriving block in runCallbacks. -/
theorem runCallbacks_cons (r : WhisperRecorder) (b : Block) (tl : List Block) :
    runCallbacks r (b :: tl) = runCallbacks (blockStep r b) tl := rfl

/-- Folding the failure-free callback over arriving blocks appends them to
BUFFER in arrival order and touches neither the recording flag, the stream,
nor the start timestamp. -/
theorem runCallbacks_spec (bs : List Block) : ∀ (r : WhisperRecorder),
    (runCallbacks r bs).BUFFER = r.BUFFER ++ bs ∧
    (runCallbacks r bs).is_recording = r.is_recording ∧
    (runCallbacks r bs).stream = r.stream ∧
    (runCallbacks r bs).start_time = r.start_time := by
  induction bs with
  | nil => intro r; simp [runCallbacks]
  | cons b tl ih =>
      intro r
      obtain ⟨h1, h2, h3, h4⟩ := ih (blockStep r b)
      rw [runCallbacks_cons]
      refine ⟨?_, ?_, ?_, ?_⟩
      · rw [h1]; simp [blockStep]
      · rw [h2]; simp [blockStep]
      · rw [h3]; simp [blockStep]
      · rw [h4]; simp [blockStep]

/-- Flattening a list of blocks of a common length multiplies lengths. -/
theorem flatten_length_const (B : ℕ) (bs : List Block)
    (h : ∀ b ∈ bs, b.length = B) : bs.flatten.length = bs.length * B := by
  induction bs with
  | nil => simp
  | cons hd tl ih =>
      simp only [List.flatten_cons, List.length_append, List.length_cons]
      rw [h hd (by simp), ih (fun b hb => h b (by simp [hb]))]
      ring

/-- Mean of squares of a constant block. -/
theorem meanSq_replicate (n : ℕ) (A : ℚ) (hn : n ≠ 0) :
    meanSq (List.replicate n A) = A ^ 2 := by
  simp only [meanSq, List.map_replicate, List.sum_replicate, List.length_replicate,
    nsmul_eq_mul]
  exact mul_div_cancel_left₀ (A ^ 2) (by exact_mod_cast hn)

/-- C3: for a recording session in which the capture callback appended the
blocks bs, each of size B and at least one of them, stop_recording returns
the waveform obtained by concatenating those blocks in arrival order, its
length is the number of blocks times B, and the BUFFER is left empty for
the next session. -/
theorem C3_stop_returns_concatenation (r0 : WhisperRecorder) (bs : List Block)
    (B : ℕ) (hrec : r0.is_recording = true) (hbuf : r0.BUFFER = [])
    (hs : r0.stream.isSome = true) (hne : bs ≠ [])
    (hB : ∀ b ∈ bs, b.length = B) :
    (WhisperRecorder.stop_recording (runCallbacks r0 bs) .ok).2 = some bs.flatten ∧
    bs.flatten.length = bs.length * B ∧
    (WhisperRecorder.stop_recording (runCallbacks r0 bs) .ok).1.BUFFER = [] := by
  obtain ⟨hB', hR, hS, _⟩ := runCallbacks_spec bs r0
  obtain ⟨s, hs2⟩ := Option.isSome_iff_exists.mp hs
  have h1 : (runCallbacks r0 bs).is_recording = true := by rw [hR, hrec]
  have h2 : (runCallbacks r0 bs).stream = some s := by rw [hS, hs2]
  have h3 : (runCallbacks r0 bs).BUFFER = bs := by rw [hB', hbuf]; simp
  refine ⟨?_, flatten_length_const B bs hB, ?_⟩
  · simp [WhisperRecorder.stop_recording, h1, h2, h3, hne]
  · simp [WhisperRecorder.stop_recording, h1, h2, h3, hne]

/-- Witness for C3 at a session of three blocks of two zero samples. -/
theorem C3_witness :
    (rStarted.is_recording = true ∧ rStarted.BUFFER = [] ∧
      rStarted.stream.isSome = true ∧ bs3 ≠ [] ∧ ∀ b ∈ bs3, b.length = 2) ∧
    ((WhisperRecorder.stop_recording (runCallbacks rStarted bs3) .ok).2 = some bs3.flatten ∧
      bs3.flatten.length = bs3.length * 2 ∧
      (WhisperRecorder.stop_recording (runCallbacks rStarted bs3) .ok).1.BUFFER = []) :=
  ⟨⟨rfl, rfl, rfl, by decide, by decide⟩,
    C3_stop_returns_concatenation rStarted bs3 2 rfl rfl rfl (by decide) (by decide)⟩

/-- C4: calling stop while not recording is an idempotent no-op in both
variants: it returns no waveform and the whole recorder state, hence the
recording flag, BUFFER, loudness and stream fields, is returned unchanged. -/
theorem C4_stop_idempotent_noop (r : WhisperRecorder) (beh : StopBehavior)
    (h : r.is_recording = false) :
    WhisperRecorder.stop_recording r beh = (r, none) ∧
    WhisperCli.stop_recording r beh = (r, Except.ok none) :=
  ⟨stop_noop_of_not_recording r beh h, stop_noop_of_not_recording_cli r beh h⟩

/-- Witness for C4 at the freshly initialised recorder. -/
theorem C4_witness :
    initRecorder.is_recording = false ∧
    (WhisperRecorder.stop_recording initRecorder .ok = (initRecorder, none) ∧
      WhisperCli.stop_recording initRecorder .ok = (initRecorder, Except.ok none)) :=
  ⟨rfl, C4_stop_idempotent_noop initRecorder .ok rfl⟩

/-- C10: transcribe called with no waveform returns the empty string and
the external engine is never invoked, so a missing capture cannot reach the
engine. -/
theorem C10_transcribe_none_skips_engine (eng : EngineBehavior) :
    WhisperRecorder.transcribe none eng = ("", false) := rfl

/-- Witness for C10 with the engine oracle that would raise. -/
theorem C10_witness :
    WhisperRecorder.transcribe none EngineBehavior.raises = ("", false) :=
  C10_transcribe_none_skips_engine EngineBehavior.raises

/-- C5: when start_recording fails at any of its sounddevice calls, the
controller stays Idle: the recording flag stays off, nothing was appended
to BUFFER, the start timestamp is untouched, the failed outcome is surfaced
as the error text in the transcript box, and no waveform can ever be
produced from the attempt, since any later stop returns none and changes
nothing. -/
theorem C5_start_failure_stays_idle (g : WhisperGUI) (now : ℚ)
    (dev : DeviceBehavior) (hdev : dev ≠ DeviceBehavior.ok)
    (hidle : g.recorder.is_recording = false) :
    (WhisperGUI.record_worker (WhisperGUI.start_recording g) now dev).recorder.is_recording = false ∧
    (WhisperGUI.record_worker (WhisperGUI.start_recording g) now dev).recorder.BUFFER = g.recorder.BUFFER ∧
    (WhisperGUI.record_worker (WhisperGUI.start_recording g) now dev).recorder.start_time = g.recorder.start_time ∧
    (WhisperGUI.record_worker (WhisperGUI.start_recording g) now dev).text_box = startErrorText ∧
    ∀ beh, WhisperRecorder.stop_recording
        (WhisperGUI.record_worker (WhisperGUI.start_recording g) now dev).recorder beh =
      ((WhisperGUI.record_worker (WhisperGUI.start_recording g) now dev).recorder, none) := by
  cases dev with
  | ok => exact absurd rfl hdev
  | testOpenRaises =>
      refine ⟨hidle, rfl, rfl, rfl, fun beh => ?_⟩
      exact stop_noop_of_not_recording _ beh hidle
  | openRaises =>
      refine ⟨hidle, rfl, rfl, rfl, fun beh => ?_⟩
      exact stop_noop_of_not_recording _ beh hidle
  | startRaises =>
      refine ⟨hidle, rfl, rfl, rfl, fun beh => ?_⟩
      exact stop_noop_of_not_recording _ beh hidle

/-- Witness for C5 at the idle application state with the test open
raising. -/
theorem C5_witness :
    (DeviceBehavior.testOpenRaises ≠ DeviceBehavior.ok ∧
      gIdle.recorder.is_recording = false) ∧
    ((WhisperGUI.record_worker (WhisperGUI.start_recording gIdle) 0 .testOpenRaises).recorder.is_recording = false ∧
      (WhisperGUI.record_worker (WhisperGUI.start_recording gIdle) 0 .testOpenRaises).recorder.BUFFER = gIdle.recorder.BUFFER ∧
      (WhisperGUI.record_worker (WhisperGUI.start_recording gIdle) 0 .testOpenRaises).recorder.start_time = gIdle.recorder.start_time ∧
      (WhisperGUI.record_worker (WhisperGUI.start_recording gIdle) 0 .testOpenRaises).text_box = startErrorText ∧
      ∀ beh, WhisperRecorder.stop_recording
          (WhisperGUI.record_worker (WhisperGUI.start_recording gIdle) 0 .testOpenRaises).recorder beh =
        ((WhisperGUI.record_worker (WhisperGUI.start_recording gIdle) 0 .testOpenRaises).recorder, none)) :=
  ⟨⟨by decide, rfl⟩, C5_start_failure_stays_idle gIdle 0 .testOpenRaises (by decide) rfl⟩

/-- C6 counterexample: the claim says the per-block capture callback never
raises past its boundary in either variant, but the whisper_cli.py callback
has no try/except, so a failure while processing a block escapes it: at the
initial recorder and a one-sample block whose processing fails, the CLI
callback propagates the error to the audio subsystem instead of logging and
skipping. -/
theorem C6_counterexample :
    WhisperCli.callback initRecorder [1] true =
      Except.error CallbackError.blockFailure := rfl

/-- C6 amended: the whisper_gui.py callback is guarded, so it never raises
past its boundary: it always returns a recorder state, the recording flag
and the stream are untouched by any invocation, and a failing block is
skipped with the state unchanged; the whisper_cli.py callback performs the
same block step when nothing fails but propagates a block failure past the
callback boundary. -/
theorem C6_amended_gui_guarded_cli_unguarded (r : WhisperRecorder) (b : Block)
    (f : Bool) :
    (WhisperRecorder.callback r b f).is_recording = r.is_recording ∧
    (WhisperRecorder.callback r b f).stream = r.stream ∧
    (f = true → WhisperRecorder.callback r b f = r) ∧
    (f = false → WhisperCli.callback r b f = Except.ok (blockStep r b)) ∧
    (f = true → WhisperCli.callback r b f = Except.error CallbackError.blockFailure) := by
  cases f <;>
    simp [WhisperRecorder.callback, WhisperCli.callback, blockStep]

/-- Witness for C6 amended at the initial recorder and a failing block. -/
theorem C6_witness :
    (WhisperRecorder.callback initRecorder [1] true).is_recording = initRecorder.is_recording ∧
    (WhisperRecorder.callback initRecorder [1] true).stream = initRecorder.stream ∧
    (true = true → WhisperRecorder.callback initRecorder [1] true = initRecorder) ∧
    (true = false → WhisperCli.callback initRecorder [1] true = Except.ok (blockStep initRecorder [1])) ∧
    (true = true → WhisperCli.callback initRecorder [1] true = Except.error CallbackError.blockFailure) :=
  C6_amended_gui_guarded_cli_unguarded initRecorder [1] true

/-- C1 counterexample: the claim says a toggle arriving while a
transcription is in flight is ignored and no second capture session starts.
In the code, _stop_and_transcribe first runs recorder.stop_recording, which
clears is_recording, and only then calls the engine; during that in-flight
window toggle_recording reads is_recording = false and takes the START
path, and running its worker opens a fresh stream and sets is_recording
again, a second capture session before the first transcription finished.
The window is exhibited concretely: rStopped is the recorder state right
after stop_recording handed the waveform [1, 1] to the engine. -/
theorem C1_counterexample :
    (WhisperRecorder.stop_recording rWithAudio .ok).2 = some [1, 1] ∧
    rStopped.is_recording = false ∧
    WhisperGUI.toggle_recording
      { recorder := rStopped
        status_label := "Generating text..."
        text_box := ""
        clipboardCalls := [] } = ToggleAction.startPath ∧
    (WhisperRecorder.start_recording rStopped 1 .ok).1.is_recording = true ∧
    (WhisperRecorder.start_recording rStopped 1 .ok).1.stream =
      some { running := true, closed := false } :=
  ⟨rfl, rfl, rfl, rfl, rfl⟩

/-- C1 amended: for every recording state with captured audio, once the
background worker has executed recorder.stop_recording (the in-flight
transcription window, in which a waveform was produced and is_recording is
false), a toggle intent is NOT ignored: toggle_recording takes the start
path, and a successful start opens a second capture session while the
transcription is still in flight; the controller has no guard against this
re-entrant start. -/
theorem C1_amended_toggle_midflight_starts_second_session
    (r : WhisperRecorder) (now : ℚ) (g : WhisperGUI)
    (hrec : r.is_recording = true) (hbuf : r.BUFFER ≠ [])
    (hs : r.stream.isSome = true)
    (hg : g.recorder = (WhisperRecorder.stop_recording r .ok).1) :
    ((WhisperRecorder.stop_recording r .ok).2).isSome = true ∧
    (WhisperRecorder.stop_recording r .ok).1.is_recording = false ∧
    WhisperGUI.toggle_recording g = ToggleAction.startPath ∧
    (WhisperRecorder.start_recording (WhisperRecorder.stop_recording r .ok).1 now .ok).1.is_recording = true := by
  obtain ⟨s, hs2⟩ := Option.isSome_iff_exists.mp hs
  refine ⟨?_, ?_, ?_, ?_⟩
  · simp [WhisperRecorder.stop_recording, hrec, hs2, hbuf]
  · simp [WhisperRecorder.stop_recording, hrec, hs2, hbuf]
  · simp [WhisperGUI.toggle_recording, hg, WhisperRecorder.stop_recording, hrec, hs2, hbuf]
  · simp [WhisperRecorder.start_recording]

/-- Witness for C1 amended at the one-block session. -/
theorem C1_witness :
    (rWithAudio.is_recording = true ∧ rWithAudio.BUFFER ≠ [] ∧
      rWithAudio.stream.isSome = true) ∧
    (((WhisperRecorder.stop_recording rWithAudio .ok).2).isSome = true ∧
      (WhisperRecorder.stop_recording rWithAudio .ok).1.is_recording = false ∧
      WhisperGUI.toggle_recording
        { recorder := (WhisperRecorder.stop_recording rWithAudio .ok).1
          status_label := "Generating text..."
          text_box := ""
          clipboardCalls := [] } = ToggleAction.startPath ∧
      (WhisperRecorder.start_recording (WhisperRecorder.stop_recording rWithAudio .ok).1 1 .ok).1.is_recording = true) :=
  ⟨⟨rfl, by decide, rfl⟩,
    C1_amended_toggle_midflight_starts_second_session rWithAudio 1
      { recorder := (WhisperRecorder.stop_recording rWithAudio .ok).1
        status_label := "Generating text..."
        text_box := ""
        clipboardCalls := [] }
      rfl (by decide) rfl rfl⟩

/-- C2 counterexample: the claim says that when the engine raises on a
non-empty waveform the outcome is transcription-failed and
ClipboardSink.setText is never invoked; in the code the raise is caught
INSIDE transcribe, which returns the empty string, so _stop_and_transcribe
continues on its success path: at the concrete one-block session it shows
the empty transcript, reports the idle status of a successful run, and DOES
pass the empty string to copy_to_clipboard. -/
theorem C2_counterexample :
    (WhisperGUI.stop_and_transcribe gRecording .ok .raises).clipboardCalls = [""] ∧
    (WhisperGUI.stop_and_transcribe gRecording .ok .raises).text_box = "" ∧
    (WhisperGUI.stop_and_transcribe gRecording .ok .raises).status_label = "Ready to record" ∧
    (WhisperGUI.stop_and_transcribe gRecording .ok .raises).recorder.is_recording = false :=
  ⟨rfl, rfl, rfl, rfl⟩

/-- C2 amended: when the engine raises while processing a non-empty
waveform, transcribe swallows the error and returns the empty string; the
controller then follows the success path: the state returns to Idle and the
run is indistinguishable from a successful empty transcription, with
ClipboardSink.setText invoked once, on the empty string. -/
theorem C2_amended_engine_failure_becomes_empty_success (g : WhisperGUI)
    (hrec : g.recorder.is_recording = true) (hbuf : g.recorder.BUFFER ≠ [])
    (hs : g.recorder.stream.isSome = true) :
    (WhisperGUI.stop_and_transcribe g .ok .raises).recorder.is_recording = false ∧
    (WhisperGUI.stop_and_transcribe g .ok .raises).text_box = "" ∧
    (WhisperGUI.stop_and_transcribe g .ok .raises).clipboardCalls = g.clipboardCalls ++ [""] ∧
    (WhisperGUI.stop_and_transcribe g .ok .raises).status_label = "Ready to record" := by
  obtain ⟨s, hs2⟩ := Option.isSome_iff_exists.mp hs
  refine ⟨?_, ?_, ?_, ?_⟩ <;>
    simp [WhisperGUI.stop_and_transcribe, WhisperRecorder.stop_recording, hrec, hs2,
      hbuf, WhisperRecorder.transcribe]

/-- Witness for C2 amended at the one-block session. -/
theorem C2_witness :
    (gRecording.recorder.is_recording = true ∧ gRecording.recorder.BUFFER ≠ [] ∧
      gRecording.recorder.stream.isSome = true) ∧
    ((WhisperGUI.stop_and_transcribe gRecording .ok .raises).recorder.is_recording = false ∧
      (WhisperGUI.stop_and_transcribe gRecording .ok .raises).text_box = "" ∧
      (WhisperGUI.stop_and_transcribe gRecording .ok .raises).clipboardCalls = gRecording.clipboardCalls ++ [""] ∧
      (WhisperGUI.stop_and_transcribe gRecording .ok .raises).status_label = "Ready to record") :=
  ⟨⟨rfl, by decide, rfl⟩,
    C2_amended_engine_failure_becomes_empty_success gRecording rfl (by decide) rfl⟩

/-- C7 counterexample: the claim says the loudness read is 0 whenever the
recorder is not currently active, in particular after a session has been
stopped; but stop_recording never resets audio_level, so after the
one-block session of full-scale samples the recorder is inactive yet its
loudness field still holds the RMS 1 of the last block. -/
theorem C7_counterexample :
    rStopped.is_recording = false ∧
    rStopped.audio_level = 1 ∧
    rStopped.audio_level ≠ 0 := by
  have hsq : rStopped.audio_level_sq = 1 := by
    norm_num [rStopped, rWithAudio, rStarted, initRecorder,
      WhisperRecorder.stop_recording, WhisperRecorder.callback, blockStep, meanSq,
      WhisperRecorder.start_recording]
  have h1 : rStopped.audio_level = 1 := by
    simp [WhisperRecorder.audio_level, hsq]
  exact ⟨rfl, h1, by rw [h1]; norm_num⟩

/-- C7 amended: the loudness field is 0 when nothing was ever recorded (the
freshly initialised recorder), and while the recorder is not active the
metering read path update_visualizer does not read it at all (it returns
early with no level); but the field itself is NOT reset on stop and retains
the RMS of the last block of the finished session. -/
theorem C7_amended_loudness_zero_init_unread_inactive (g : WhisperGUI)
    (h : g.recorder.is_recording = false) :
    initRecorder.audio_level = 0 ∧
    WhisperGUI.update_visualizer g = none := by
  constructor
  · simp [WhisperRecorder.audio_level, initRecorder]
  · simp [WhisperGUI.update_visualizer, h]

/-- Witness for C7 amended at the stopped application state. -/
theorem C7_witness :
    gIdle.recorder.is_recording = false ∧
    (initRecorder.audio_level = 0 ∧ WhisperGUI.update_visualizer gIdle = none) :=
  ⟨rfl, C7_amended_loudness_zero_init_unread_inactive gIdle rfl⟩

/-- C8: after the callback processes a non-empty block of all-zero samples
the loudness sample is 0, and after a non-empty block of constant
nonnegative amplitude A it equals A, the RMS of the block. -/
theorem C8_rms_zero_and_constant_blocks (r : WhisperRecorder) (n : ℕ) (A : ℚ)
    (hn : 0 < n) (hA : 0 ≤ A) :
    (WhisperRecorder.callback r (List.replicate n 0) false).audio_level = 0 ∧
    (WhisperRecorder.callback r (List.replicate n A) false).audio_level = (A : ℝ) := by
  have h0 : (WhisperRecorder.callback r (List.replicate n (0 : ℚ)) false).audio_level_sq = 0 := by
    simp [WhisperRecorder.callback, blockStep, meanSq_replicate n 0 hn.ne']
  have hA2 : (WhisperRecorder.callback r (List.replicate n A) false).audio_level_sq = A ^ 2 := by
    simp [WhisperRecorder.callback, blockStep, meanSq_replicate n A hn.ne']
  constructor
  · simp [WhisperRecorder.audio_level, h0]
  · simp only [WhisperRecorder.audio_level, hA2]
    push_cast
    exact Real.sqrt_sq (by exact_mod_cast hA)

/-- Witness for C8 at blocks of two samples and amplitude 1. -/
theorem C8_witness :
    ((0 : ℕ) < 2 ∧ (0 : ℚ) ≤ 1) ∧
    ((WhisperRecorder.callback initRecorder (List.replicate 2 0) false).audio_level = 0 ∧
      (WhisperRecorder.callback initRecorder (List.replicate 2 1) false).audio_level = ((1 : ℚ) : ℝ)) :=
  ⟨⟨by norm_num, by norm_num⟩,
    C8_rms_zero_and_constant_blocks initRecorder 2 1 (by norm_num) (by norm_num)⟩

/-- C9 counterexample: the claim says every error, including a stop
failure, returns the system to Idle; but when stream.stop() raises inside
stop_recording the except branch returns None BEFORE is_recording is
cleared, so at the concrete recording session the worker ends with the
recorder still flagged recording, while the label already reads as idle. -/
theorem C9_counterexample :
    (WhisperGUI.stop_and_transcribe gRecording .stopRaises (.returnsText "x")).recorder.is_recording = true ∧
    (WhisperGUI.stop_and_transcribe gRecording .stopRaises (.returnsText "x")).status_label = "Ready to record" ∧
    (WhisperGUI.stop_and_transcribe gRecording .stopRaises (.returnsText "x")).text_box = "No audio recorded" :=
  ⟨rfl, rfl, rfl⟩

/-- C9 amended: a start failure and an engine failure do return the system
to Idle, but a failure of stream.stop() during stop_recording leaves
is_recording true, i.e. the controller stuck outside Idle, even though the
status label is reset as if the session had ended. -/
theorem C9_amended_idle_after_errors_except_stop_failure
    (g g2 : WhisperGUI) (now : ℚ) (dev : DeviceBehavior) (eng : EngineBehavior)
    (hdev : dev ≠ DeviceBehavior.ok) (hg : g.recorder.is_recording = false)
    (h2 : g2.recorder.is_recording = true) (hs2 : g2.recorder.stream.isSome = true) :
    (WhisperGUI.record_worker (WhisperGUI.start_recording g) now dev).recorder.is_recording = false ∧
    (WhisperGUI.stop_and_transcribe g2 .ok .raises).recorder.is_recording = false ∧
    (WhisperGUI.stop_and_transcribe g2 .stopRaises eng).recorder.is_recording = true ∧
    (WhisperGUI.stop_and_transcribe g2 .stopRaises eng).status_label = "Ready to record" := by
  obtain ⟨s, hs3⟩ := Option.isSome_iff_exists.mp hs2
  refine ⟨?_, ?_, ?_, ?_⟩
  · cases dev with
    | ok => exact absurd rfl hdev
    | testOpenRaises => exact hg
    | openRaises => exact hg
    | startRaises => exact hg
  · by_cases hb : g2.recorder.BUFFER = [] <;>
      simp [WhisperGUI.stop_and_transcribe, WhisperRecorder.stop_recording, h2, hs3,
        hb, WhisperRecorder.transcribe]
  · simp [WhisperGUI.stop_and_transcribe, WhisperRecorder.stop_recording, h2, hs3]
  · simp [WhisperGUI.stop_and_transcribe, WhisperRecorder.stop_recording, h2, hs3]

/-- Witness for C9 amended at the idle and recording application states. -/
theorem C9_witness :
    (DeviceBehavior.testOpenRaises ≠ DeviceBehavior.ok ∧
      gIdle.recorder.is_recording = false ∧
      gRecording.recorder.is_recording = true ∧
      gRecording.recorder.stream.isSome = true) ∧
    ((WhisperGUI.record_worker (WhisperGUI.start_recording gIdle) 0 .testOpenRaises).recorder.is_recording = false ∧
      (WhisperGUI.stop_and_transcribe gRecording .ok .raises).recorder.is_recording = false ∧
      (WhisperGUI.stop_and_transcribe gRecording .stopRaises .raises).recorder.is_recording = true ∧
      (WhisperGUI.stop_and_transcribe gRecording .stopRaises .raises).status_label = "Ready to record") :=
  ⟨⟨by decide, rfl, rfl, rfl⟩,
    C9_amended_idle_after_errors_except_stop_failure gIdle gRecording 0
      .testOpenRaises .raises (by decide) rfl rfl rfl⟩
